import Mathlib

/-!
Shallow embedding of the GBP product-submission system
(Config.js, InputProcessor.js, ProductsApi.js, MainProcessor.js, ExecutionLogger.js).

Where a module appears in two revisions in the repository, the revision that is
assigned last to the module-level variable is the effective one (all Apps Script
files share one global scope, so the later assignment to the same variable name
wins); the definitions below follow that effective revision and note the line
ranges they transcribe.
-/

set_option linter.unusedVariables false
set_option linter.unnecessarySeqFocus false

namespace GbpSubmission

/-- A store-code map, as built by buildStoreCodeMap: a JS object used as a
dictionary from store code to fully-qualified location name. -/
abbrev StoreMap := String → Option String

/-- The JS String.prototype.trim: drop whitespace from both ends. -/
def jsTrim (s : String) : String :=
  String.mk (((s.data.dropWhile Char.isWhitespace).reverse.dropWhile Char.isWhitespace).reverse)

/-- Prefix test on strings (String.prototype.startsWith). -/
def strStartsWith (s p : String) : Bool := p.data.isPrefixOf s.data

/-- One character of a case-insensitive ASCII pattern match: the lowercase
pattern character p matches c when they are equal or c is the uppercase ASCII
variant of p. -/
def charLowerEq (p c : Char) : Bool :=
  p = c || (65 ≤ c.toNat && c.toNat ≤ 90 && p.toNat = c.toNat + 32)

/-- Case-insensitive prefix match of a lowercase ASCII pattern. -/
def startsWithCI : List Char → List Char → Bool
  | [], _ => true
  | _ :: _, [] => false
  | p :: ps, c :: cs => charLowerEq p c && startsWithCI ps cs

/-! ## Data model: one parsed detail row (InputProcessor._parseDetailRow output) -/

/-- One parsed submission row.  Fields are the trimmed cell strings; price has
already been derived by stripping non-numeric characters and parsing (0 on
failure), and buttonTypeApi by the BUTTON_TYPE_MAP lookup. -/
structure Detail where
  rowNum : Nat := 0
  businessName : String := ""
  storeCode : String := ""
  productCategory : String := ""
  productName : String := ""
  description : String := ""
  price : ℚ := 0
  buttonType : String := ""
  buttonTypeApi : String := ""
  landingPageUrl : String := ""
  imagePath : String := ""
deriving Repr, DecidableEq

/-- CONFIG.BUTTON_TYPE_MAP (Config.js): label of the button column to the GBP
actionType code; the label なし (none) maps to the empty string. -/
def BUTTON_TYPE_MAP : List (String × String) :=
  [("予約", "BOOK"), ("注文", "ORDER"), ("詳細", "LEARN_MORE"), ("購入", "BUY"),
   ("特典を入手", "GET_OFFER"), ("登録", "SIGN_UP"), ("電話", "CALL"), ("なし", "")]

/-- Derivation of buttonTypeApi in InputProcessor._parseDetailRow: a label found
in BUTTON_TYPE_MAP is replaced by its code, an unknown label passes through. -/
def buttonTypeApiOf (buttonType : String) : String :=
  match BUTTON_TYPE_MAP.lookup buttonType with
  | some mapped => mapped
  | none => buttonType

/-! ## Local post payload (ProductsApi._buildLocalPost, effective revision) -/

/-- product.price block of the LocalPost payload. -/
structure PriceBlock where
  currencyCode : String
  units : String
deriving Repr, DecidableEq

/-- callToAction block of the LocalPost payload. -/
structure CallToAction where
  actionType : String
  url : String
deriving Repr, DecidableEq

/-- One media entry of the LocalPost payload. -/
structure MediaItem where
  mediaFormat : String
  sourceUrl : String
deriving Repr, DecidableEq

/-- The LocalPost request body built by _buildLocalPost. -/
structure LocalPost where
  languageCode : String
  topicType : String
  summary : String
  productName : String
  productCategory : String
  productDescription : String
  price : Option PriceBlock
  callToAction : Option CallToAction
  media : List MediaItem
deriving Repr, DecidableEq

/-- Transcription of ProductsApi._buildLocalPost (ProductsApi.js:523-560):
price block only when the parsed price is strictly positive, with units the
floored price; callToAction from buttonTypeApi with a LEARN_MORE fallback when
the action code is empty but a URL exists; media from the exposed image URL. -/
def buildLocalPost (d : Detail) (imageUrl : Option String) : LocalPost :=
  { languageCode := "ja",
    topicType := "PRODUCT",
    summary := d.description,
    productName := d.productName,
    productCategory := d.productCategory,
    productDescription := d.description,
    price :=
      if 0 < d.price then
        some { currencyCode := "JPY", units := toString ⌊d.price⌋ }
      else none,
    callToAction :=
      if d.buttonTypeApi ≠ "" ∧ d.landingPageUrl ≠ "" then
        some { actionType := d.buttonTypeApi, url := d.landingPageUrl }
      else if d.buttonTypeApi = "" ∧ d.landingPageUrl ≠ "" then
        some { actionType := "LEARN_MORE", url := d.landingPageUrl }
      else none,
    media :=
      match imageUrl with
      | some u => [{ mediaFormat := "PHOTO", sourceUrl := u }]
      | none => [] }

/-! ## Row validation (InputProcessor._validateDetail, effective revision) -/

/-- The test of the regex of _validateDetail, matching a landing-page URL that
starts with the scheme http:// or https:// case-insensitively. -/
def urlFormatOk (url : String) : Bool :=
  startsWithCI "http://".data url.data || startsWithCI "https://".data url.data

/-- Transcription of InputProcessor._validateDetail (part_000:482-508): six
checks executed in sequence, each pushing its own message. -/
def validateDetail (d : Detail) (rowNum : Nat) : List String :=
  let px := toString rowNum ++ "行目: "
  (if d.businessName = "" then [px ++ "ビジネス名が未入力です"] else []) ++
  (if d.storeCode = "" then [px ++ "店舗コードが未入力です"] else []) ++
  (if d.productName = "" then [px ++ "商品・サービス名が未入力です"] else []) ++
  (if d.description = "" then [px ++ "商品の説明が未入力です"] else []) ++
  (if d.landingPageUrl ≠ "" ∧ ¬ urlFormatOk d.landingPageUrl then
    [px ++ "ランディングページURLの形式が不正です（http/https で始まる必要があります）: " ++
      d.landingPageUrl] else []) ++
  (if d.buttonType ≠ "" ∧ d.buttonType ≠ "なし" ∧ d.landingPageUrl = "" then
    [px ++ "ボタンを設定する場合はランディングページURLが必須です"] else [])

/-- The validation rules as the spec words them: an explicit list of
independent condition/message pairs, one per rule, in rule order. -/
def ruleChecks (d : Detail) (rowNum : Nat) : List (Bool × String) :=
  let px := toString rowNum ++ "行目: "
  [(d.businessName == "", px ++ "ビジネス名が未入力です"),
   (d.storeCode == "", px ++ "店舗コードが未入力です"),
   (d.productName == "", px ++ "商品・サービス名が未入力です"),
   (d.description == "", px ++ "商品の説明が未入力です"),
   (d.landingPageUrl != "" && ! urlFormatOk d.landingPageUrl,
     px ++ "ランディングページURLの形式が不正です（http/https で始まる必要があります）: " ++
       d.landingPageUrl),
   (d.buttonType != "" && d.buttonType != "なし" && d.landingPageUrl == "",
     px ++ "ボタンを設定する場合はランディングページURLが必須です")]

/-- The error list the spec predicts: the message of every violated rule, each
rule evaluated independently of the others. -/
def specRowErrors (d : Detail) (rowNum : Nat) : List String :=
  ((ruleChecks d rowNum).filter (fun c => c.1)).map (fun c => c.2)

/-! ## Header parsing (InputProcessor._parseHeader, effective revision) -/

/-- The parsed submission header (fields of CONFIG.INPUT_HEADER_ROWS). -/
structure HeaderRec where
  businessGroupId : String
  businessGroupName : String
  googleAccountId : String
  pass : String
deriving Repr, DecidableEq

/-- One header field read by _parseHeader (part_000:413-436): column B
(index 1) of the given row, stringified and trimmed; a value starting with a
full-width opening bracket or equal to the template value accounts/XXXXXX is
treated as empty; column A is never used as a fallback. -/
def parseHeaderField (rows : List (List String)) (rowIdx : Nat) : String :=
  match rows[rowIdx]? with
  | none => ""
  | some rowData =>
      match rowData[1]? with
      | none => ""
      | some raw =>
          let v := jsTrim raw
          if strStartsWith v "（" ∨ v = "accounts/XXXXXX" then "" else v

/-- _parseHeader: the four fields of CONFIG.INPUT_HEADER_ROWS, rows 1-4. -/
def parseHeader (rows : List (List String)) : HeaderRec :=
  { businessGroupId := parseHeaderField rows 0,
    businessGroupName := parseHeaderField rows 1,
    googleAccountId := parseHeaderField rows 2,
    pass := parseHeaderField rows 3 }

/-- The required-header checks of _buildInputData (part_000:371-372): a missing
businessGroupId or googleAccountId pushes its message onto the error list. -/
def requiredHeaderErrors (h : HeaderRec) : List String :=
  (if h.businessGroupId = "" then ["ビジネスグループID（1行目B列）が未入力です"] else []) ++
  (if h.googleAccountId = "" then ["GoogleアカウントID（3行目B列）が未入力です"] else [])

/-- The header value as the spec words it: the whitespace-trimmed value of
column 2 of the fixed row, with known placeholder/template strings treated as
empty (an absent row or cell reads as the empty string). -/
def specHeaderValue (rows : List (List String)) (rowIdx : Nat) : String :=
  let cell := ((rows[rowIdx]?).getD [])[1]?.getD ""
  let v := jsTrim cell
  if strStartsWith v "（" ∨ v = "accounts/XXXXXX" then "" else v

/-! ## Location resolution (ProductsApi.buildStoreCodeMap / findLocationName) -/

/-- One location record of the directory listing response. An empty storeCode
stands for a location that declares no store code (JS falsy). -/
structure GbpLocation where
  storeCode : String
  name : String
deriving Repr, DecidableEq

/-- One page of the paginated listLocations response; an empty nextPageToken
stands for an absent continuation token. -/
structure LocPage where
  locations : List GbpLocation
  nextPageToken : String
deriving Repr, DecidableEq

/-- The body of the forEach of buildStoreCodeMap (ProductsApi.js:329-338): a
location with a store code overwrites the map entry of that code, a location
without one is logged and skipped. -/
def addLoc (map : StoreMap) (loc : GbpLocation) : StoreMap :=
  if loc.storeCode = "" then map
  else fun k => if k = loc.storeCode then some loc.name else map k

/-- The do-while of buildStoreCodeMap (ProductsApi.js:315-347): fetch the page
of up to 100 locations for the current token, fold its locations into the map,
and continue with the returned token while one is returned.  The provider is
abstracted as a function from (pageSize, pageToken) to the page; fuel bounds
the number of iterations, none meaning the fuel ran out before the provider
stopped returning tokens. -/
def buildStoreCodeMapGo (fetch : Nat → String → LocPage) :
    Nat → String → StoreMap → Option StoreMap
  | 0, _, _ => none
  | fuel + 1, pageToken, map =>
      let page := fetch 100 pageToken
      let map2 := page.locations.foldl addLoc map
      if page.nextPageToken = "" then some map2
      else buildStoreCodeMapGo fetch fuel page.nextPageToken map2

/-- buildStoreCodeMap: run the pagination loop from the empty token and the
empty map. -/
def buildStoreCodeMap (fetch : Nat → String → LocPage) (fuel : Nat) : Option StoreMap :=
  buildStoreCodeMapGo fetch fuel "" (fun _ => none)

/-- The sequence of pages the loop visits: the chain of fetches at page size
100 starting from the empty token, following nextPageToken until it is empty
(none when the chain does not end within the given bound). -/
def chainPages (fetch : Nat → String → LocPage) : Nat → String → Option (List LocPage)
  | 0, _ => none
  | fuel + 1, pageToken =>
      let page := fetch 100 pageToken
      if page.nextPageToken = "" then some [page]
      else (chainPages fetch fuel page.nextPageToken).map (fun ps => page :: ps)

/-- ProductsApi.findLocationName (ProductsApi.js:358-360): the map entry of the
store code, with the JS falsy coalescing storeCodeMap[storeCode] || null, so an
empty-string entry also yields null; the accountName argument is unused. -/
def findLocationName (accountName : String) (storeCode : String)
    (storeCodeMap : StoreMap) : Option String :=
  match storeCodeMap storeCode with
  | some v => if v = "" then none else some v
  | none => none

/-! ## Image exposure and restore (ProductsApi, effective revision) -/

/-- The sharing state of the Drive file backing the image: access level and
permission as set through File.setSharing. -/
structure Sharing where
  access : String
  permission : String
deriving Repr, DecidableEq

/-- The handle returned by prepareImageUrl: the resolved file, the synthesized
public URL, and the access/permission recorded before the exposure. -/
structure ImageRef where
  fileId : String
  url : String
  origAccess : String
  origPermission : String
deriving Repr, DecidableEq

/-- ProductsApi.prepareImageUrl (ProductsApi.js:381-402): an empty or blank
imagePath yields null; a path the resolver cannot resolve throws; otherwise the
original sharing pair is recorded, sharing is elevated to anyone-with-link /
view, and the handle is returned.  The three-strategy file resolution is
abstracted as a function from the trimmed path to the file id; the file sharing
state is passed and returned explicitly. -/
def prepareImageUrl (imagePath : String) (resolve : String → Option String)
    (st : Sharing) : Except String (Option ImageRef × Sharing) :=
  if imagePath = "" ∨ jsTrim imagePath = "" then Except.ok (none, st)
  else
    match resolve (jsTrim imagePath) with
    | none => Except.error ("画像ファイルが見つかりません: " ++ imagePath)
    | some fid =>
        Except.ok
          (some { fileId := fid,
                  url := "https://drive.google.com/uc?export=download&id=" ++ fid,
                  origAccess := st.access,
                  origPermission := st.permission },
           { access := "ANYONE_WITH_LINK", permission := "VIEW" })

/-- What one call of restoreImageSharing did: the sharing state afterwards, how
many setSharing-back-to-original calls were executed, and whether a failure of
that call was logged. -/
structure RestoreOutcome where
  sharing : Sharing
  restoreCalls : Nat
  failureLogged : Bool
deriving Repr, DecidableEq

/-- ProductsApi.restoreImageSharing (ProductsApi.js:408-415): a null handle is
a no-op; otherwise setSharing back to the recorded original pair, and a failure
of that call (setSharingOk false) is logged and swallowed. -/
def restoreImageSharing (imageRef : Option ImageRef) (setSharingOk : Bool)
    (st : Sharing) : RestoreOutcome :=
  match imageRef with
  | none => { sharing := st, restoreCalls := 0, failureLogged := false }
  | some r =>
      if setSharingOk then
        { sharing := { access := r.origAccess, permission := r.origPermission },
          restoreCalls := 1, failureLogged := false }
      else
        { sharing := st, restoreCalls := 1, failureLogged := true }

/-- The parsed JSON body of a successful localPosts creation. -/
structure PostResult where
  name : String
deriving Repr, DecidableEq

/-- Everything observable about one createProduct call: its result (ok body or
thrown message), the final sharing state of the image file, and the restore
bookkeeping. -/
structure CreateOutcome where
  result : Except String PostResult
  sharing : Sharing
  restoreCalls : Nat
  restoreFailureLogged : Bool
deriving Repr

/-- ProductsApi.createProduct (ProductsApi.js:490-508): prepare the image when
imagePath is non-empty (a preparation failure propagates, with no restore to
run), build and submit the payload, and in the finally block restore the
sharing settings whether the submission returned or threw.  The HTTP submission
is abstracted as a function from the payload to ok-body-or-thrown-message. -/
def createProduct (productData : Detail) (resolve : String → Option String)
    (submit : LocalPost → Except String PostResult) (setSharingOk : Bool)
    (st : Sharing) : CreateOutcome :=
  if productData.imagePath = "" then
    { result := submit (buildLocalPost productData none),
      sharing := st, restoreCalls := 0, restoreFailureLogged := false }
  else
    match prepareImageUrl productData.imagePath resolve st with
    | Except.error e =>
        { result := Except.error e, sharing := st,
          restoreCalls := 0, restoreFailureLogged := false }
    | Except.ok (imageRef, st1) =>
        let submitResult := submit (buildLocalPost productData (imageRef.map (fun r => r.url)))
        let rr := restoreImageSharing imageRef setSharingOk st1
        { result := submitResult, sharing := rr.sharing,
          restoreCalls := rr.restoreCalls, restoreFailureLogged := rr.failureLogged }

/-! ## The per-file row loop and routing (MainProcessor._processOneFile) -/

/-- One entry of the run log, as recorded by logger.addRow. -/
structure LogEntry where
  rowNum : Nat
  result : String
  postId : String
  message : String
deriving Repr, DecidableEq

/-- One element of parsed.details: the parsed row together with its attached
validation errors. -/
structure RowItem where
  rowNum : Nat
  data : Detail
  errors : List String
deriving Repr, DecidableEq

/-- The message recorded when a store code resolves to no location
(MainProcessor.js:139-140). -/
def notFoundMessage (storeCode : String) : String :=
  "店舗コード「" ++ storeCode ++ "」に対応する GBP ロケーションが見つかりません" ++
  "（GBP 管理画面で storeCode が設定されているか確認してください）"

/-- What processing one row produced: the log entry, whether the row was
recorded as a success, and whether createProduct was invoked for it. -/
structure RowStep where
  entry : LogEntry
  isSuccess : Bool
  publishAttempted : Bool
deriving Repr, DecidableEq

/-- The body of the forEach over parsed.details (MainProcessor.js:123-162):
a row with validation errors is recorded as ERROR with the joined messages and
no publish attempt; a row whose store code resolves to no location is recorded
as ERROR; otherwise createProduct runs, an ok result is recorded as SUCCESS
with the returned post id, a thrown message as ERROR.  The publish call is
abstracted as a function from (locationName, row) to ok-or-thrown-message. -/
def processRow (accountName : String) (storeCodeMap : StoreMap)
    (publish : String → Detail → Except String PostResult) (item : RowItem) : RowStep :=
  if item.errors = [] then
    match findLocationName accountName item.data.storeCode storeCodeMap with
    | none =>
        { entry := { rowNum := item.rowNum, result := "ERROR", postId := "",
                     message := notFoundMessage item.data.storeCode },
          isSuccess := false, publishAttempted := false }
    | some locationName =>
        match publish locationName item.data with
        | Except.ok r =>
            { entry := { rowNum := item.rowNum, result := "SUCCESS", postId := r.name,
                         message := "" },
              isSuccess := true, publishAttempted := true }
        | Except.error e =>
            { entry := { rowNum := item.rowNum, result := "ERROR", postId := "",
                         message := e },
              isSuccess := false, publishAttempted := true }
  else
    { entry := { rowNum := item.rowNum, result := "ERROR", postId := "",
                 message := String.intercalate " / " item.errors },
      isSuccess := false, publishAttempted := false }

/-- The running state of the row loop: the log so far and the counters
successCount / errorCount of _processOneFile, plus the number of publish
attempts as a ghost observation. -/
structure LoopState where
  log : List LogEntry
  successCount : Nat
  errorCount : Nat
  publishAttempts : Nat
deriving Repr, DecidableEq

/-- One iteration of the row loop folded over the loop state. -/
def rowStepFold (accountName : String) (storeCodeMap : StoreMap)
    (publish : String → Detail → Except String PostResult)
    (s : LoopState) (item : RowItem) : LoopState :=
  let step := processRow accountName storeCodeMap publish item
  { log := s.log ++ [step.entry],
    successCount := s.successCount + (if step.isSuccess then 1 else 0),
    errorCount := s.errorCount + (if step.isSuccess then 0 else 1),
    publishAttempts := s.publishAttempts + (if step.publishAttempted then 1 else 0) }

/-- The forEach over parsed.details. -/
def rowLoop (accountName : String) (storeCodeMap : StoreMap)
    (publish : String → Detail → Except String PostResult)
    (items : List RowItem) : LoopState :=
  items.foldl (rowStepFold accountName storeCodeMap publish)
    { log := [], successCount := 0, errorCount := 0, publishAttempts := 0 }

/-- The result of InputProcessor.parse as _processOneFile consumes it. -/
structure ParsedInput where
  header : Option HeaderRec
  details : List RowItem
  errors : List String
deriving Repr, DecidableEq

/-- The terminal folder a processed file is moved to. -/
inductive FileDest
  | processed
  | error
deriving Repr, DecidableEq

/-- Everything observable about one _processOneFile run: the chosen terminal
folder, whether logger.finalize ran, and the row-loop observations. -/
structure FileOutcome where
  dest : FileDest
  finalized : Bool
  rowsProcessed : Nat
  publishAttempts : Nat
  successCount : Nat
  errorCount : Nat
  log : List LogEntry
deriving Repr, DecidableEq

/-- MainProcessor._processOneFile (MainProcessor.js:75-173): a null header is
fatal (finalize, route to Error, no row processed); a failure of the store-code
map fetch is fatal (finalize, route to Error); otherwise the row loop runs and
the file routes to Processed exactly when successCount is positive.  A null
header with an empty error list would make the JS dereference null; that throw
is caught at the file-iteration boundary of processInboxFiles, which routes to
Error without finalizing. -/
def processOneFile (parsed : ParsedInput) (accountName : String)
    (mapFetch : Except String StoreMap)
    (publish : String → Detail → Except String PostResult) : FileOutcome :=
  match parsed.header with
  | none =>
      if parsed.errors = [] then
        { dest := FileDest.error, finalized := false, rowsProcessed := 0,
          publishAttempts := 0, successCount := 0, errorCount := 0, log := [] }
      else
        { dest := FileDest.error, finalized := true, rowsProcessed := 0,
          publishAttempts := 0, successCount := 0, errorCount := 1, log := [] }
  | some _ =>
      match mapFetch with
      | Except.error _ =>
          { dest := FileDest.error, finalized := true, rowsProcessed := 0,
            publishAttempts := 0, successCount := 0, errorCount := 1, log := [] }
      | Except.ok storeCodeMap =>
          let ls := rowLoop accountName storeCodeMap publish parsed.details
          { dest := if 0 < ls.successCount then FileDest.processed else FileDest.error,
            finalized := true, rowsProcessed := parsed.details.length,
            publishAttempts := ls.publishAttempts,
            successCount := ls.successCount, errorCount := ls.errorCount,
            log := ls.log }

/-! ## Run log accumulator (ExecutionLogger) -/

/-- The _stats record of a logger instance. -/
structure Stats where
  total : Nat
  success : Nat
  skip : Nat
  error : Nat
deriving Repr, DecidableEq

/-- ExecutionLogger addRow (ExecutionLogger.js:73-77): total always increments,
and exactly one of success / skip / error according to the result string, any
string other than SUCCESS and SKIP counting as an error. -/
def Stats.addRow (s : Stats) (result : String) : Stats :=
  if result = "SUCCESS" then
    { s with total := s.total + 1, success := s.success + 1 }
  else if result = "SKIP" then
    { s with total := s.total + 1, skip := s.skip + 1 }
  else
    { s with total := s.total + 1, error := s.error + 1 }

/-- ExecutionLogger addHeaderError (ExecutionLogger.js:109-111): total and
error increment. -/
def Stats.addHeaderError (s : Stats) : Stats :=
  { s with total := s.total + 1, error := s.error + 1 }

/-- One record call of a logger instance. -/
inductive LogEvent
  | row (result : String)
  | headerError
deriving Repr, DecidableEq

/-- Dispatch of one record call onto the stats. -/
def applyEvent (s : Stats) : LogEvent → Stats
  | LogEvent.row result => s.addRow result
  | LogEvent.headerError => s.addHeaderError

/-- The stats after a sequence of record calls on a fresh logger instance. -/
def runEvents (events : List LogEvent) : Stats :=
  events.foldl applyEvent { total := 0, success := 0, skip := 0, error := 0 }

/-- The success-rate cell of _buildSummarySheet (ExecutionLogger.js:149-151):
round(success / total * 100) with a percent sign when total is positive, the
undefined marker otherwise. -/
def successRate (s : Stats) : String :=
  if 0 < s.total then
    toString (round ((s.success : ℚ) / (s.total : ℚ) * 100)) ++ "%"
  else "-"

/-! ## Claim C5: the price block -/

/-- Claim C5: for every row, the published payload contains a price block iff
the parsed price is strictly positive, and when present its unit value is the
floor of the price (fractional component dropped). -/
theorem buildLocalPost_price (d : Detail) (imageUrl : Option String) :
    ((buildLocalPost d imageUrl).price = none ↔ d.price ≤ 0) ∧
    (0 < d.price →
      (buildLocalPost d imageUrl).price
        = some { currencyCode := "JPY", units := toString ⌊d.price⌋ }) := by
  unfold buildLocalPost
  constructor
  · by_cases h : 0 < d.price
    · simp [h, not_le.mpr h]
    · simp [h, not_lt.mp h]
  · intro h
    simp [h]

/-- A concrete row with a positive price. -/
def detailPriced : Detail :=
  { productName := "ランチ", description := "説明", price := 1234 }

/-- Witness for C5 at a concrete priced row. -/
theorem buildLocalPost_price_witness :
    (0 : ℚ) < detailPriced.price ∧
    (buildLocalPost detailPriced none).price
      = some { currencyCode := "JPY", units := toString ⌊detailPriced.price⌋ } := by
  refine ⟨by norm_num [detailPriced], ?_⟩
  exact (buildLocalPost_price detailPriced none).2 (by norm_num [detailPriced])

/-! ## Claim C3: the call-to-action block -/

/-- Claim C3 as stated: no call-to-action for a none-mapped label without a
URL; for a present URL, the action code is the mapped code of the label, with
the LEARN_MORE default applying only when no label was given. -/
def claimC3 : Prop :=
  ∀ (d : Detail) (u : Option String),
    d.buttonTypeApi = buttonTypeApiOf d.buttonType →
    ((d.buttonType = "なし" ∧ d.landingPageUrl = "") →
        (buildLocalPost d u).callToAction = none) ∧
    (d.landingPageUrl ≠ "" →
        (buildLocalPost d u).callToAction =
          some { actionType := if d.buttonType = "" then "LEARN_MORE"
                               else buttonTypeApiOf d.buttonType,
                 url := d.landingPageUrl })

/-- A concrete row whose button label is なし (mapped to the empty code) and
which carries a landing-page URL. -/
def detailNoneButton : Detail :=
  { rowNum := 7, businessName := "渋谷店", storeCode := "SHOP-001",
    productName := "ランチ", description := "説明",
    buttonType := "なし", buttonTypeApi := buttonTypeApiOf "なし",
    landingPageUrl := "https://example.com/p" }

/-- Counterexample to claim C3 as stated: for the row with label なし and a
URL, the code emits the LEARN_MORE default, not the (empty) mapped code of the
label. -/
theorem buildLocalPost_cta_counterexample : ¬ claimC3 := by
  intro h
  have h2 := (h detailNoneButton none rfl).2 (by decide)
  have h3 : (buildLocalPost detailNoneButton none).callToAction
      = some { actionType := "LEARN_MORE", url := "https://example.com/p" } := by decide
  rw [h2] at h3
  exact absurd h3 (by decide)

/-- Claim C3 amended: a call-to-action block is produced iff a landing-page
URL is present, and its action code is the derived action code of the row when
that code is non-empty, the generic LEARN_MORE default applying whenever the
derived code is empty — both when no button label was given and when the label
maps to the empty none sentinel. -/
theorem buildLocalPost_callToAction (d : Detail) (u : Option String)
    (hb : d.buttonTypeApi = buttonTypeApiOf d.buttonType) :
    (d.landingPageUrl = "" → (buildLocalPost d u).callToAction = none) ∧
    (d.landingPageUrl ≠ "" →
        (buildLocalPost d u).callToAction =
          some { actionType := if buttonTypeApiOf d.buttonType = ""
                               then "LEARN_MORE" else buttonTypeApiOf d.buttonType,
                 url := d.landingPageUrl }) := by
  unfold buildLocalPost
  constructor
  · intro hu
    simp [hu]
  · intro hu
    by_cases hb2 : buttonTypeApiOf d.buttonType = ""
    · simp [hb, hb2, hu]
    · simp [hb, hb2, hu]

/-- Witness for the amended C3 at the なし-with-URL row. -/
theorem buildLocalPost_callToAction_witness :
    (buildLocalPost detailNoneButton none).callToAction
      = some { actionType := "LEARN_MORE", url := "https://example.com/p" } := by
  have h := (buildLocalPost_callToAction detailNoneButton none rfl).2 (by decide)
  rw [h]
  decide

/-! ## Claim C7: row validation -/

/-- Claim C7: the attached validation error list is exactly the list of
messages of the independently evaluated rules, with no short-circuiting, and
the row is valid (empty list) iff all six rules hold. -/
theorem validateDetail_rules (d : Detail) (n : Nat) :
    validateDetail d n = specRowErrors d n ∧
    (validateDetail d n = [] ↔
      (d.businessName ≠ "" ∧ d.storeCode ≠ "" ∧ d.productName ≠ "" ∧ d.description ≠ "" ∧
       (d.landingPageUrl ≠ "" → urlFormatOk d.landingPageUrl = true) ∧
       (d.buttonType ≠ "" → d.buttonType ≠ "なし" → d.landingPageUrl ≠ ""))) := by
  constructor
  · by_cases h1 : d.businessName = "" <;>
    by_cases h2 : d.storeCode = "" <;>
    by_cases h3 : d.productName = "" <;>
    by_cases h4 : d.description = "" <;>
    by_cases h5 : d.landingPageUrl = "" <;>
    by_cases h6 : urlFormatOk d.landingPageUrl <;>
    by_cases h7 : d.buttonType = "" <;>
    by_cases h8 : d.buttonType = "なし" <;>
    simp_all [validateDetail, specRowErrors, ruleChecks]
  · by_cases h1 : d.businessName = "" <;>
    by_cases h2 : d.storeCode = "" <;>
    by_cases h3 : d.productName = "" <;>
    by_cases h4 : d.description = "" <;>
    by_cases h5 : d.landingPageUrl = "" <;>
    by_cases h6 : urlFormatOk d.landingPageUrl <;>
    by_cases h7 : d.buttonType = "" <;>
    by_cases h8 : d.buttonType = "なし" <;>
    simp_all [validateDetail]

/-- A concrete row violating only the button-requires-URL rule. -/
def detailMissingUrl : Detail :=
  { rowNum := 7, businessName := "渋谷店", storeCode := "SHOP-001",
    productName := "ランチ", description := "説明", buttonType := "詳細",
    buttonTypeApi := buttonTypeApiOf "詳細" }

/-- Witness for C7: a valid concrete row has an empty error list. -/
theorem validateDetail_rules_witness :
    validateDetail { detailMissingUrl with landingPageUrl := "https://example.com/p" } 7 = [] := by
  exact (validateDetail_rules _ 7).2.mpr (by decide)

/-! ## Claim C10: findLocationName -/

/-- Claim C10 as stated: the result of findLocationName never depends on the
account name, equals the map entry when one is present, and is null when the
map has no entry. -/
def claimC10 : Prop :=
  ∀ (a1 a2 storeCode : String) (storeCodeMap : StoreMap),
    findLocationName a1 storeCode storeCodeMap = findLocationName a2 storeCode storeCodeMap ∧
    (∀ v, storeCodeMap storeCode = some v →
        findLocationName a1 storeCode storeCodeMap = some v) ∧
    (storeCodeMap storeCode = none →
        findLocationName a1 storeCode storeCodeMap = none)

/-- A store-code map holding an empty-string location name. -/
def mapWithEmptyEntry : StoreMap := fun k => if k = "SHOP-001" then some "" else none

/-- Counterexample to claim C10 as stated: an empty-string entry is present in
the map, yet the falsy coalescing of the code returns null for it. -/
theorem findLocationName_counterexample : ¬ claimC10 := by
  intro h
  have h2 := (h "accounts/1" "accounts/2" "SHOP-001" mapWithEmptyEntry).2.1 ""
      (by simp [mapWithEmptyEntry])
  simp [findLocationName, mapWithEmptyEntry] at h2

/-- Claim C10 amended: the result is independent of the account name, equals
the map entry when that entry is present and non-empty, and is null both when
the map has no entry and when the entry is the empty string (which the
storeCodeMap-or-null coalescing treats as absent). -/
theorem findLocationName_spec (a1 a2 storeCode : String) (storeCodeMap : StoreMap) :
    findLocationName a1 storeCode storeCodeMap = findLocationName a2 storeCode storeCodeMap ∧
    (∀ v, storeCodeMap storeCode = some v → v ≠ "" →
        findLocationName a1 storeCode storeCodeMap = some v) ∧
    (storeCodeMap storeCode = none →
        findLocationName a1 storeCode storeCodeMap = none) ∧
    (storeCodeMap storeCode = some "" →
        findLocationName a1 storeCode storeCodeMap = none) := by
  refine ⟨rfl, ?_, ?_, ?_⟩
  · intro v hv hne
    simp [findLocationName, hv, hne]
  · intro hv
    simp [findLocationName, hv]
  · intro hv
    simp [findLocationName, hv]

/-- Witness for the amended C10 at a concrete one-entry map. -/
theorem findLocationName_spec_witness :
    findLocationName "accounts/1" "SHOP-001"
      (fun k => if k = "SHOP-001" then some "accounts/1/locations/9" else none)
      = some "accounts/1/locations/9" := by
  exact (findLocationName_spec "accounts/1" "accounts/2" "SHOP-001" _).2.1
    "accounts/1/locations/9" (by simp) (by decide)

/-! ## Claim C9: the accumulator counters -/

/-- Helper: every record call keeps total equal to success + skip + error. -/
theorem foldl_applyEvent_inv (events : List LogEvent) (s : Stats)
    (h : s.total = s.success + s.skip + s.error) :
    (events.foldl applyEvent s).total
      = (events.foldl applyEvent s).success + (events.foldl applyEvent s).skip
        + (events.foldl applyEvent s).error := by
  induction events generalizing s with
  | nil => simpa using h
  | cons ev rest ih =>
      simp only [List.foldl_cons]
      apply ih
      cases ev with
      | row result =>
          simp only [applyEvent, Stats.addRow]
          split_ifs <;> simp <;> omega
      | headerError =>
          simp only [applyEvent, Stats.addHeaderError]
          omega

/-- Claim C9: each record call (addRow or addHeaderError) increments total by
exactly 1 and exactly one of success, skip, error by exactly 1, so that
total = success + skip + error is an invariant of every call sequence, and
finalize reports round(success / total * 100) when total is positive and the
undefined marker otherwise. -/
theorem logger_stats (events : List LogEvent) (s : Stats) (ev : LogEvent) :
    ((runEvents events).total
        = (runEvents events).success + (runEvents events).skip
          + (runEvents events).error) ∧
    ((applyEvent s ev).total = s.total + 1) ∧
    ((applyEvent s ev).success + (applyEvent s ev).skip + (applyEvent s ev).error
        = s.success + s.skip + s.error + 1) ∧
    ((applyEvent s ev).success = s.success ∨ (applyEvent s ev).success = s.success + 1) ∧
    ((applyEvent s ev).skip = s.skip ∨ (applyEvent s ev).skip = s.skip + 1) ∧
    ((applyEvent s ev).error = s.error ∨ (applyEvent s ev).error = s.error + 1) ∧
    (0 < (runEvents events).total →
        successRate (runEvents events)
          = toString (round (((runEvents events).success : ℚ)
              / ((runEvents events).total : ℚ) * 100)) ++ "%") ∧
    ((runEvents events).total = 0 → successRate (runEvents events) = "-") := by
  refine ⟨foldl_applyEvent_inv events _ rfl, ?_, ?_, ?_, ?_, ?_, ?_, ?_⟩
  · cases ev with
    | row result =>
        simp only [applyEvent, Stats.addRow]
        split_ifs <;> rfl
    | headerError => rfl
  · cases ev with
    | row result =>
        simp only [applyEvent, Stats.addRow]
        split_ifs <;> simp <;> omega
    | headerError =>
        simp only [applyEvent, Stats.addHeaderError]
        omega
  · cases ev with
    | row result =>
        simp only [applyEvent, Stats.addRow]
        split_ifs <;> simp
    | headerError => left; rfl
  · cases ev with
    | row result =>
        simp only [applyEvent, Stats.addRow]
        split_ifs <;> simp
    | headerError => left; rfl
  · cases ev with
    | row result =>
        simp only [applyEvent, Stats.addRow]
        split_ifs <;> simp
    | headerError => right; rfl
  · intro h
    simp [successRate, h]
  · intro h
    simp [successRate, h]

/-- Witness for C9: one success, one header error and one skip give total 3
and a 33% success rate. -/
theorem logger_stats_witness :
    0 < (runEvents [LogEvent.row "SUCCESS", LogEvent.headerError, LogEvent.row "SKIP"]).total ∧
    (runEvents [LogEvent.row "SUCCESS", LogEvent.headerError, LogEvent.row "SKIP"]).total
      = (runEvents [LogEvent.row "SUCCESS", LogEvent.headerError, LogEvent.row "SKIP"]).success
        + (runEvents [LogEvent.row "SUCCESS", LogEvent.headerError, LogEvent.row "SKIP"]).skip
        + (runEvents [LogEvent.row "SUCCESS", LogEvent.headerError, LogEvent.row "SKIP"]).error ∧
    successRate (runEvents [LogEvent.row "SUCCESS", LogEvent.headerError, LogEvent.row "SKIP"])
      = "33%" := by
  have h := logger_stats [LogEvent.row "SUCCESS", LogEvent.headerError, LogEvent.row "SKIP"]
    { total := 0, success := 0, skip := 0, error := 0 } LogEvent.headerError
  refine ⟨by decide, h.1, ?_⟩
  have h2 := h.2.2.2.2.2.2.1 (by decide)
  rw [h2]
  have hsucc : (runEvents [LogEvent.row "SUCCESS", LogEvent.headerError,
      LogEvent.row "SKIP"]).success = 1 := by decide
  have htot : (runEvents [LogEvent.row "SUCCESS", LogEvent.headerError,
      LogEvent.row "SKIP"]).total = 3 := by decide
  rw [hsucc, htot]
  have hr : round (((1 : ℕ) : ℚ) / ((3 : ℕ) : ℚ) * 100) = 33 := by
    norm_num [round_eq]
  rw [hr]
  decide

/-! ## Claim C4: header fields -/

/-- Helper: the field read of _parseHeader agrees with the spec's description
of it (trimmed column-2 value with placeholders treated as empty). -/
theorem parseHeaderField_eq_spec (rows : List (List String)) (rowIdx : Nat) :
    parseHeaderField rows rowIdx = specHeaderValue rows rowIdx := by
  unfold parseHeaderField specHeaderValue
  cases h1 : rows[rowIdx]? with
  | none => decide
  | some rowData =>
      cases h2 : rowData[1]? with
      | none =>
          simp [h2]
          decide
      | some raw => simp [h2]

/-- Claim C4: for a grid of at least the minimum row count, every header field
is the whitespace-trimmed column-2 value of its fixed row with placeholder and
template strings treated as empty, and a missing businessGroupId or
googleAccountId contributes exactly its entry to the header error list. -/
theorem parseHeader_fields (rows : List (List String)) (hlen : 6 ≤ rows.length) :
    ((parseHeader rows).businessGroupId = specHeaderValue rows 0) ∧
    ((parseHeader rows).businessGroupName = specHeaderValue rows 1) ∧
    ((parseHeader rows).googleAccountId = specHeaderValue rows 2) ∧
    ((parseHeader rows).pass = specHeaderValue rows 3) ∧
    ("ビジネスグループID（1行目B列）が未入力です" ∈ requiredHeaderErrors (parseHeader rows)
        ↔ (parseHeader rows).businessGroupId = "") ∧
    ("GoogleアカウントID（3行目B列）が未入力です" ∈ requiredHeaderErrors (parseHeader rows)
        ↔ (parseHeader rows).googleAccountId = "") := by
  refine ⟨parseHeaderField_eq_spec rows 0, parseHeaderField_eq_spec rows 1,
    parseHeaderField_eq_spec rows 2, parseHeaderField_eq_spec rows 3, ?_, ?_⟩
  · by_cases h1 : (parseHeader rows).businessGroupId = "" <;>
    by_cases h2 : (parseHeader rows).googleAccountId = "" <;>
    simp_all [requiredHeaderErrors]
  · by_cases h1 : (parseHeader rows).businessGroupId = "" <;>
    by_cases h2 : (parseHeader rows).googleAccountId = "" <;>
    simp_all [requiredHeaderErrors]

/-- A concrete parsed grid: the four header rows, a blank row, the detail
header row, with a placeholder in row 2 and whitespace around the account id. -/
def gridExample : List (List String) :=
  [["ビジネスグループID", "BG-01"],
   ["ビジネスグループ名", "（ここにグループ名を入力）"],
   ["GoogleアカウントID", " accounts/123 "],
   ["PASS", ""],
   [],
   ["ビジネス名", "店舗コード"]]

/-- Witness for C4 on the concrete grid: trimming, placeholder blanking and
the required-field error for the blank pass-through are all visible. -/
theorem parseHeader_fields_witness :
    (parseHeader gridExample).businessGroupId = "BG-01" ∧
    (parseHeader gridExample).businessGroupName = "" ∧
    (parseHeader gridExample).googleAccountId = "accounts/123" ∧
    ("ビジネスグループID（1行目B列）が未入力です" ∉ requiredHeaderErrors (parseHeader gridExample)) := by
  have h := parseHeader_fields gridExample (by decide)
  refine ⟨?_, ?_, ?_, ?_⟩
  · rw [h.1]; decide
  · rw [h.2.1]; decide
  · rw [h.2.2.1]; decide
  · intro hmem
    have h2 := (h.2.2.2.2.1).mp hmem
    rw [h.1] at h2
    exact absurd h2 (by decide)

/-! ## Claim C2: exactly one restore per acquired exposure -/

/-- Claim C2: when prepareImageUrl returns a non-null handle, createProduct
executes exactly one restore, on the success path and the thrown-error path of
the submission alike; the handle records the access and permission read at
acquire time, a succeeding restore puts the file back to exactly that recorded
(pre-acquire) state, and a failing restore is logged and never changes the
submission result. -/
theorem createProduct_restore (d : Detail) (resolve : String → Option String)
    (submit : LocalPost → Except String PostResult) (setSharingOk : Bool) (st : Sharing)
    (ref : ImageRef) (stExp : Sharing)
    (himg : d.imagePath ≠ "")
    (hprep : prepareImageUrl d.imagePath resolve st = Except.ok (some ref, stExp)) :
    (createProduct d resolve submit setSharingOk st).restoreCalls = 1 ∧
    (createProduct d resolve submit setSharingOk st).result
        = submit (buildLocalPost d (some ref.url)) ∧
    ref.origAccess = st.access ∧
    ref.origPermission = st.permission ∧
    (setSharingOk = true →
        (createProduct d resolve submit setSharingOk st).sharing
          = { access := ref.origAccess, permission := ref.origPermission }) ∧
    (setSharingOk = true →
        (createProduct d resolve submit setSharingOk st).sharing = st) ∧
    (setSharingOk = false →
        (createProduct d resolve submit setSharingOk st).restoreFailureLogged = true) := by
  have href : ref.origAccess = st.access ∧ ref.origPermission = st.permission := by
    unfold prepareImageUrl at hprep
    by_cases hc : d.imagePath = "" ∨ jsTrim d.imagePath = ""
    · rw [if_pos hc] at hprep
      simp at hprep
    · rw [if_neg hc] at hprep
      cases hres : resolve (jsTrim d.imagePath) with
      | none =>
          rw [hres] at hprep
          simp at hprep
      | some fid =>
          rw [hres] at hprep
          simp at hprep
          rw [← hprep.1]
          exact ⟨rfl, rfl⟩
  have hmain : createProduct d resolve submit setSharingOk st =
      { result := submit (buildLocalPost d (some ref.url)),
        sharing := (restoreImageSharing (some ref) setSharingOk stExp).sharing,
        restoreCalls := (restoreImageSharing (some ref) setSharingOk stExp).restoreCalls,
        restoreFailureLogged :=
          (restoreImageSharing (some ref) setSharingOk stExp).failureLogged } := by
    unfold createProduct
    rw [if_neg himg, hprep]
    rfl
  rw [hmain]
  cases setSharingOk with
  | true =>
      refine ⟨rfl, rfl, href.1, href.2, fun _ => rfl, fun _ => ?_, fun h => by simp at h⟩
      show ({ access := ref.origAccess, permission := ref.origPermission } : Sharing) = st
      rw [href.1, href.2]
  | false =>
      exact ⟨rfl, rfl, href.1, href.2, fun h => by simp at h, fun h => by simp at h,
        fun _ => rfl⟩

/-- A concrete row carrying an image path. -/
def detailWithImage : Detail :=
  { rowNum := 7, businessName := "渋谷店", storeCode := "SHOP-001",
    productName := "ランチ", description := "説明", imagePath := "IMG" }

/-- The handle prepareImageUrl produces for detailWithImage under the
one-entry resolver. -/
def refExample : ImageRef :=
  { fileId := "FID", url := "https://drive.google.com/uc?export=download&id=FID",
    origAccess := "PRIVATE", origPermission := "NONE" }

/-- Witness for C2: a submission that throws still gets exactly one restore,
and the failing restore is logged while the thrown result is unchanged. -/
theorem createProduct_restore_witness :
    (createProduct detailWithImage (fun s => if s = "IMG" then some "FID" else none)
        (fun _ => Except.error "[createProduct] HTTP 500: boom") false
        { access := "PRIVATE", permission := "NONE" }).restoreCalls = 1 ∧
    (createProduct detailWithImage (fun s => if s = "IMG" then some "FID" else none)
        (fun _ => Except.error "[createProduct] HTTP 500: boom") false
        { access := "PRIVATE", permission := "NONE" }).restoreFailureLogged = true := by
  have h := createProduct_restore detailWithImage
    (fun s => if s = "IMG" then some "FID" else none)
    (fun _ => Except.error "[createProduct] HTTP 500: boom") false
    { access := "PRIVATE", permission := "NONE" } refExample
    { access := "ANYONE_WITH_LINK", permission := "VIEW" } (by decide) (by rfl)
  exact ⟨h.1, h.2.2.2.2.2.2 rfl⟩

/-! ## Claim C8: the row loop -/

/-- Helper: the row loop is a pointwise map over the rows — the log gains
exactly one entry per row, in input order, and the counters count the
per-row outcomes; nothing about one row changes what happens to another. -/
theorem rowLoop_foldl (a : String) (m : StoreMap)
    (p : String → Detail → Except String PostResult)
    (items : List RowItem) (s : LoopState) :
    items.foldl (rowStepFold a m p) s =
      { log := s.log ++ items.map (fun it => (processRow a m p it).entry),
        successCount := s.successCount
          + items.countP (fun it => (processRow a m p it).isSuccess),
        errorCount := s.errorCount
          + items.countP (fun it => ! (processRow a m p it).isSuccess),
        publishAttempts := s.publishAttempts
          + items.countP (fun it => (processRow a m p it).publishAttempted) } := by
  induction items generalizing s with
  | nil => simp
  | cons it rest ih =>
      rw [List.foldl_cons, ih]
      simp only [rowStepFold, List.map_cons, List.countP_cons, LoopState.mk.injEq]
      refine ⟨by simp, ?_, ?_, ?_⟩
      · cases hb : (processRow a m p it).isSuccess <;> simp [hb] <;> omega
      · cases hb : (processRow a m p it).isSuccess <;> simp [hb] <;> omega
      · cases hb : (processRow a m p it).publishAttempted <;> simp [hb] <;> omega

/-- Helper: a predicate and its negation count every element exactly once. -/
theorem countP_not_add {α : Type} (l : List α) (q : α → Bool) :
    l.countP q + l.countP (fun x => ! q x) = l.length := by
  induction l with
  | nil => simp
  | cons x t ih =>
      simp only [List.countP_cons, List.length_cons]
      cases hq : q x <;> simp [hq] <;> omega

/-- Claim C8: the row loop visits every parsed row in input order and records
exactly one outcome per row — validation errors give an ERROR entry with the
joined messages and no publish attempt, an unresolved store code gives an
ERROR entry with no publish attempt, a thrown publish gives an ERROR entry
with the thrown message, a returned publish gives a SUCCESS entry with the
returned post id — and each row's record is a function of that row alone, so
no row's failure affects any later row. -/
theorem rowLoop_outcomes (a : String) (m : StoreMap)
    (p : String → Detail → Except String PostResult) (items : List RowItem) :
    (rowLoop a m p items).log = items.map (fun it => (processRow a m p it).entry) ∧
    (rowLoop a m p items).log.length = items.length ∧
    (rowLoop a m p items).successCount + (rowLoop a m p items).errorCount
        = items.length ∧
    (∀ it, it.errors ≠ [] →
        processRow a m p it =
          { entry := { rowNum := it.rowNum, result := "ERROR", postId := "",
                       message := String.intercalate " / " it.errors },
            isSuccess := false, publishAttempted := false }) ∧
    (∀ it, it.errors = [] → findLocationName a it.data.storeCode m = none →
        processRow a m p it =
          { entry := { rowNum := it.rowNum, result := "ERROR", postId := "",
                       message := notFoundMessage it.data.storeCode },
            isSuccess := false, publishAttempted := false }) ∧
    (∀ it loc r, it.errors = [] → findLocationName a it.data.storeCode m = some loc →
        p loc it.data = Except.ok r →
        processRow a m p it =
          { entry := { rowNum := it.rowNum, result := "SUCCESS", postId := r.name,
                       message := "" },
            isSuccess := true, publishAttempted := true }) ∧
    (∀ it loc e, it.errors = [] → findLocationName a it.data.storeCode m = some loc →
        p loc it.data = Except.error e →
        processRow a m p it =
          { entry := { rowNum := it.rowNum, result := "ERROR", postId := "",
                       message := e },
            isSuccess := false, publishAttempted := true }) := by
  have hf := rowLoop_foldl a m p items
    { log := [], successCount := 0, errorCount := 0, publishAttempts := 0 }
  refine ⟨?_, ?_, ?_, ?_, ?_, ?_, ?_⟩
  · rw [rowLoop, hf]
    simp
  · rw [rowLoop, hf]
    simp
  · rw [rowLoop, hf]
    simpa using countP_not_add items (fun it => (processRow a m p it).isSuccess)
  · intro it h
    simp [processRow, h]
  · intro it h hloc
    simp [processRow, h, hloc]
  · intro it loc r h hloc hp
    simp [processRow, h, hloc, hp]
  · intro it loc e h hloc hp
    simp [processRow, h, hloc, hp]

/-- A store-code map with the single code S2. -/
def mapExample : StoreMap :=
  fun k => if k = "S2" then some "accounts/1/locations/9" else none

/-- A publish stub that always returns the same created post. -/
def publishExample : String → Detail → Except String PostResult :=
  fun _ _ => Except.ok { name := "accounts/1/locations/9/localPosts/5" }

/-- A row carrying a validation error. -/
def itemWithError : RowItem :=
  { rowNum := 7, data := { rowNum := 7, storeCode := "S1" },
    errors := ["7行目: ビジネス名が未入力です"] }

/-- A valid row whose store code resolves. -/
def itemValid : RowItem :=
  { rowNum := 8,
    data := { rowNum := 8, businessName := "渋谷店", storeCode := "S2",
              productName := "ランチ", description := "説明" },
    errors := [] }

/-- Witness for C8: the bad row is logged as ERROR without aborting the loop,
and the following valid row still publishes and is logged as SUCCESS. -/
theorem rowLoop_outcomes_witness :
    (rowLoop "accounts/1" mapExample publishExample [itemWithError, itemValid]).log
      = [{ rowNum := 7, result := "ERROR", postId := "",
           message := "7行目: ビジネス名が未入力です" },
         { rowNum := 8, result := "SUCCESS",
           postId := "accounts/1/locations/9/localPosts/5", message := "" }] ∧
    processRow "accounts/1" mapExample publishExample itemWithError =
      { entry := { rowNum := 7, result := "ERROR", postId := "",
                   message := "7行目: ビジネス名が未入力です" },
        isSuccess := false, publishAttempted := false } := by
  have h := rowLoop_outcomes "accounts/1" mapExample publishExample [itemWithError, itemValid]
  constructor
  · rw [h.1]
    decide
  · have h4 := h.2.2.2.1 itemWithError (by decide)
    rw [h4]
    decide

/-! ## Claim C1: file routing -/

/-- Claim C1: a file routes to Processed exactly when at least one row was
recorded as Success; with zero recorded successes it routes to Error; and a
null header routes to Error with no row processed and no publish attempted,
the log being finalized first whenever the parse reported its error. -/
theorem processOneFile_routing (parsed : ParsedInput) (accountName : String)
    (mapFetch : Except String StoreMap)
    (publish : String → Detail → Except String PostResult) :
    ((processOneFile parsed accountName mapFetch publish).dest = FileDest.processed
        ↔ 0 < (processOneFile parsed accountName mapFetch publish).successCount) ∧
    (parsed.header = none →
        (processOneFile parsed accountName mapFetch publish).dest = FileDest.error ∧
        (processOneFile parsed accountName mapFetch publish).rowsProcessed = 0 ∧
        (processOneFile parsed accountName mapFetch publish).publishAttempts = 0 ∧
        (parsed.errors ≠ [] →
            (processOneFile parsed accountName mapFetch publish).finalized = true)) ∧
    (∀ e, mapFetch = Except.error e → parsed.header ≠ none →
        (processOneFile parsed accountName mapFetch publish).dest = FileDest.error ∧
        (processOneFile parsed accountName mapFetch publish).finalized = true ∧
        (processOneFile parsed accountName mapFetch publish).rowsProcessed = 0) ∧
    (∀ m, parsed.header ≠ none → mapFetch = Except.ok m →
        (processOneFile parsed accountName mapFetch publish).successCount
          = (rowLoop accountName m publish parsed.details).successCount ∧
        (processOneFile parsed accountName mapFetch publish).finalized = true) := by
  cases hh : parsed.header with
  | none =>
      by_cases he : parsed.errors = []
      · refine ⟨?_, ?_, ?_, ?_⟩
        · simp [processOneFile, hh, he]
        · intro _
          simp [processOneFile, hh, he]
        · intro e hm hne
          exact absurd rfl hne
        · intro m hne
          exact absurd rfl hne
      · refine ⟨?_, ?_, ?_, ?_⟩
        · simp [processOneFile, hh, he]
        · intro _
          simp [processOneFile, hh, he]
        · intro e hm hne
          exact absurd rfl hne
        · intro m hne
          exact absurd rfl hne
  | some hdr =>
      cases hm : mapFetch with
      | error e =>
          refine ⟨?_, ?_, ?_, ?_⟩
          · simp [processOneFile, hh]
          · intro h
            exact absurd h (by simp)
          · intro e2 hm2 hne
            simp [processOneFile, hh]
          · intro m hne hm2
            exact absurd hm2 (by simp)
      | ok m =>
          refine ⟨?_, ?_, ?_, ?_⟩
          · by_cases hs : 0 < (rowLoop accountName m publish parsed.details).successCount
            · simp [processOneFile, hh, hs]
            · simp [processOneFile, hh, hs]
          · intro h
            exact absurd h (by simp)
          · intro e hm2 hne
            exact absurd hm2 (by simp)
          · intro m2 hne hm2
            have hmm : m = m2 := by
              injection hm2
            subst hmm
            simp [processOneFile, hh]

/-- A parsed input with a readable header and the two-row detail list. -/
def parsedExample : ParsedInput :=
  { header := some { businessGroupId := "BG-01", businessGroupName := "G",
                     googleAccountId := "accounts/123", pass := "" },
    details := [itemWithError, itemValid],
    errors := [] }

/-- A parsed input whose header could not be read. -/
def parsedNoHeader : ParsedInput :=
  { header := none, details := [],
    errors := ["ファイルの行数が不足しています（最低 6 行必要）: a.csv"] }

/-- Witness for C1: one success among two rows routes the file to Processed,
and the unreadable-header input routes to Error after finalizing with no row
processed. -/
theorem processOneFile_routing_witness :
    (processOneFile parsedExample "accounts/123" (Except.ok mapExample)
        publishExample).dest = FileDest.processed ∧
    (processOneFile parsedNoHeader "" (Except.ok mapExample)
        publishExample).dest = FileDest.error ∧
    (processOneFile parsedNoHeader "" (Except.ok mapExample)
        publishExample).rowsProcessed = 0 ∧
    (processOneFile parsedNoHeader "" (Except.ok mapExample)
        publishExample).finalized = true := by
  have h1 := processOneFile_routing parsedExample "accounts/123" (Except.ok mapExample)
    publishExample
  have h2 := processOneFile_routing parsedNoHeader "" (Except.ok mapExample) publishExample
  have h3 := h2.2.1 rfl
  exact ⟨h1.1.mpr (by decide), h3.1, h3.2.1, h3.2.2.2 (by decide)⟩

/-! ## Claim C6: pagination and the store-code map -/

/-- Helper: folding addLoc over a location list gives last-write-wins lookup —
the entry of a non-empty code is the name of the last location carrying that
code, falling back to the initial map, and the empty code is never written. -/
theorem foldl_addLoc (l : List GbpLocation) (m : StoreMap) (k : String) :
    (l.foldl addLoc m) k =
      if k = "" then m k
      else
        match ((l.filter (fun loc => loc.storeCode == k)).map
            (fun loc => loc.name)).getLast? with
        | some v => some v
        | none => m k := by
  induction l using List.reverseRecOn with
  | nil =>
      simp only [List.foldl_nil, List.filter_nil, List.map_nil, List.getLast?_nil]
      split_ifs <;> rfl
  | append_singleton l x ih =>
      rw [List.foldl_append, List.foldl_cons, List.foldl_nil]
      by_cases hx : x.storeCode = ""
      · rw [addLoc, if_pos hx, ih]
        by_cases hk : k = ""
        · simp [hk]
        · have hxk : (x.storeCode == k) = false :=
            beq_eq_false_iff_ne.mpr (by rw [hx]; exact Ne.symm hk)
          simp [hk, List.filter_append, hxk]
      · rw [addLoc, if_neg hx]
        by_cases hk : k = x.storeCode
        · have hk0 : k ≠ "" := by rw [hk]; exact hx
          have hxk : (x.storeCode == k) = true := beq_iff_eq.mpr hk.symm
          simp only [if_pos hk, if_neg hk0]
          rw [List.filter_append, List.map_append]
          simp [hxk, List.getLast?_concat]
        · have hxk : (x.storeCode == k) = false :=
            beq_eq_false_iff_ne.mpr (fun h => hk h.symm)
          simp only [if_neg hk]
          rw [ih]
          simp [List.filter_append, hxk]

/-- Helper: the pagination loop equals a fold of addLoc over the locations of
the visited page chain. -/
theorem buildStoreCodeMapGo_eq_chain (fetch : Nat → String → LocPage) :
    ∀ (fuel : Nat) (t : String) (m : StoreMap),
      buildStoreCodeMapGo fetch fuel t m =
        (chainPages fetch fuel t).map
          (fun ps => (ps.flatMap (fun pg => pg.locations)).foldl addLoc m) := by
  intro fuel
  induction fuel with
  | zero =>
      intro t m
      rfl
  | succ n ih =>
      intro t m
      simp only [buildStoreCodeMapGo, chainPages]
      by_cases hnext : (fetch 100 t).nextPageToken = ""
      · simp [hnext]
      · simp only [hnext, if_neg (by simp [hnext] : ¬ ((fetch 100 t).nextPageToken = ""))]
        rw [ih]
        cases hc : chainPages fetch n (fetch 100 t).nextPageToken with
        | none => simp
        | some ps =>
            simp [List.flatMap_cons, List.foldl_append]

/-- Helper: a terminating page chain is stable under giving the loop more
fuel. -/
theorem chainPages_mono (fetch : Nat → String → LocPage) :
    ∀ (n : Nat) (t : String) (ps : List LocPage),
      chainPages fetch n t = some ps →
      ∀ n2, n ≤ n2 → chainPages fetch n2 t = some ps := by
  intro n
  induction n with
  | zero =>
      intro t ps h
      simp [chainPages] at h
  | succ k ih =>
      intro t ps h n2 hle
      obtain ⟨m2, rfl⟩ : ∃ m2, n2 = m2 + 1 := ⟨n2 - 1, by omega⟩
      have hk : k ≤ m2 := by omega
      simp only [chainPages] at h ⊢
      by_cases hnext : (fetch 100 t).nextPageToken = ""
      · simp [hnext] at h ⊢
        exact h
      · simp only [if_neg hnext] at h ⊢
        cases hc : chainPages fetch k (fetch 100 t).nextPageToken with
        | none =>
            rw [hc] at h
            simp at h
        | some ps0 =>
            rw [hc] at h
            rw [ih _ _ hc m2 hk]
            exact h

/-- Claim C6: for a stable listing whose token chain from the empty token ends
within the fuel bound, buildStoreCodeMap succeeds; its map has an entry for
exactly the store codes declared by some location of some visited page (later
pages included, so listings beyond one page are fully covered), that entry
being the location id of the (last) location declaring the code; locations
without a store code are excluded; and any sufficient re-run over the
unchanged provider yields the pointwise-identical map. -/
theorem buildStoreCodeMap_pagination (fetch : Nat → String → LocPage)
    (fuel fuel2 : Nat) (pages : List LocPage)
    (hc : chainPages fetch fuel "" = some pages) :
    (∃ m, buildStoreCodeMap fetch fuel = some m ∧
      (∀ k, k ≠ "" →
        m k = (((pages.flatMap (fun pg => pg.locations)).filter
            (fun loc => loc.storeCode == k)).map (fun loc => loc.name)).getLast?) ∧
      m "" = none) ∧
    (∀ m1 m2, buildStoreCodeMap fetch fuel = some m1 →
        buildStoreCodeMap fetch fuel2 = some m2 → ∀ k, m1 k = m2 k) := by
  constructor
  · refine ⟨(pages.flatMap (fun pg => pg.locations)).foldl addLoc (fun _ => none),
      ?_, ?_, ?_⟩
    · rw [buildStoreCodeMap, buildStoreCodeMapGo_eq_chain, hc]
      rfl
    · intro k hk
      rw [foldl_addLoc, if_neg hk]
      cases hG : (((pages.flatMap (fun pg => pg.locations)).filter
          (fun loc => loc.storeCode == k)).map (fun loc => loc.name)).getLast? <;>
        simp [hG]
    · rw [foldl_addLoc]
      simp
  · intro m1 m2 h1 h2 k
    rw [buildStoreCodeMap, buildStoreCodeMapGo_eq_chain, hc] at h1
    simp at h1
    rw [buildStoreCodeMap, buildStoreCodeMapGo_eq_chain] at h2
    cases hc2 : chainPages fetch fuel2 "" with
    | none =>
        rw [hc2] at h2
        simp at h2
    | some ps2 =>
        rw [hc2] at h2
        simp at h2
        have hmax1 := chainPages_mono fetch fuel "" pages hc (max fuel fuel2) (by omega)
        have hmax2 := chainPages_mono fetch fuel2 "" ps2 hc2 (max fuel fuel2) (by omega)
        rw [hmax1] at hmax2
        have hps : pages = ps2 := by
          injection hmax2
        subst hps
        rw [← h1, ← h2]

/-- A provider with a stable two-page listing: the first page returns a
continuation token and contains one location without a store code, the second
returns no further token. -/
def fetchExample : Nat → String → LocPage :=
  fun _ t =>
    if t = "pg2" then
      { locations := [{ storeCode := "S3", name := "accounts/1/locations/3" }],
        nextPageToken := "" }
    else
      { locations := [{ storeCode := "S1", name := "accounts/1/locations/1" },
                      { storeCode := "S2", name := "accounts/1/locations/2" },
                      { storeCode := "", name := "accounts/1/locations/0" }],
        nextPageToken := "pg2" }

/-- Witness for C6 on the two-page provider: the second page's code is
covered, the code-less location is excluded, and an absent code has no
entry. -/
theorem buildStoreCodeMap_pagination_witness :
    ∃ m, buildStoreCodeMap fetchExample 2 = some m ∧
      m "S3" = some "accounts/1/locations/3" ∧
      m "S1" = some "accounts/1/locations/1" ∧
      m "" = none ∧
      m "S9" = none := by
  have h := buildStoreCodeMap_pagination fetchExample 2 2
    [{ locations := [{ storeCode := "S1", name := "accounts/1/locations/1" },
                     { storeCode := "S2", name := "accounts/1/locations/2" },
                     { storeCode := "", name := "accounts/1/locations/0" }],
       nextPageToken := "pg2" },
     { locations := [{ storeCode := "S3", name := "accounts/1/locations/3" }],
       nextPageToken := "" }] (by decide)
  obtain ⟨⟨m, hm, hk, h0⟩, hid⟩ := h
  refine ⟨m, hm, ?_, ?_, h0, ?_⟩
  · rw [hk "S3" (by decide)]
    decide
  · rw [hk "S1" (by decide)]
    decide
  · rw [hk "S9" (by decide)]
    decide

end GbpSubmission
